import Mathlib

/-!
Verification of the proposed_traits workspace against its specification.

The workspace consists of three crate roots:
  * src/crypto_traits/src/lib.rs      — crypto trait-family module declarations
  * src/peripheral_traits/src/lib.rs  — peripheral trait-family module declarations
  * src/proposed-traits/src/lib.rs    — the compatibility pass-through crate

The crate roots are embedded directly.  The bodies of the declared modules
(otp, block_device, digest, mac, ...) are not part of this source tree, so the
behavioral contracts they describe are modelled from the specification where a
claim needs them; those definitions carry a doc comment starting
"Modelled from the spec:".
-/

/-- Crate-level inner attributes appearing at the top of a lib.rs. -/
inductive CrateAttr where
  | noStd          : CrateAttr
  | denyUnsafeCode : CrateAttr
deriving DecidableEq, Repr

namespace crypto_traits

/-- Inner attributes of src/crypto_traits/src/lib.rs, lines 1-2:
`#![no_std]` and `#![deny(unsafe_code)]`. -/
def crateAttrs : List CrateAttr := [CrateAttr.noStd, CrateAttr.denyUnsafeCode]

/-- Public module declarations of src/crypto_traits/src/lib.rs, in source
order (lines 4-9): `pub mod common; pub mod digest; pub mod ecdsa;
pub mod mac; pub mod rsa; pub mod symm_cipher;`. -/
def pubModules : List String :=
  ["common", "digest", "ecdsa", "mac", "rsa", "symm_cipher"]

end crypto_traits

namespace peripheral_traits

/-- Inner attributes of src/peripheral_traits/src/lib.rs, lines 1-2:
`#![no_std]` and `#![deny(unsafe_code)]`. -/
def crateAttrs : List CrateAttr := [CrateAttr.noStd, CrateAttr.denyUnsafeCode]

/-- Public module declarations of src/peripheral_traits/src/lib.rs, in source
order (lines 4-10): `pub mod block_device; pub mod i2c_target;
pub mod i3c_master; pub mod i3c_target; pub mod otp; pub mod otp_aspeed;
pub mod system_control;`. -/
def pubModules : List String :=
  ["block_device", "i2c_target", "i3c_master", "i3c_target",
   "otp", "otp_aspeed", "system_control"]

end peripheral_traits

/-- The crate in which an item is originally defined. `facade` stands for an
item defined by the proposed_traits compatibility crate itself (the crate
root defines none beyond re-exports). -/
inductive Origin where
  | peripheral : Origin
  | crypto     : Origin
  | messaging  : Origin
  | facade     : Origin
deriving DecidableEq, Repr

/-- An item, identified by its defining crate and its path inside it. -/
structure Item where
  origin : Origin
  path   : List String
deriving DecidableEq, Repr

namespace proposed_traits

/-- Inner attributes of src/proposed-traits/src/lib.rs, lines 1-2:
`#![no_std]` and `#![deny(unsafe_code)]`. -/
def crateAttrs : List CrateAttr := [CrateAttr.noStd, CrateAttr.denyUnsafeCode]

/-- Top-level name resolution at the root of the proposed_traits crate
(src/proposed-traits/src/lib.rs).  The crate root contains
`pub use peripheral_traits::*;`, `pub use crypto_traits::*;`,
`pub use messaging_traits::{client, service};`, and an explicit
`pub mod common { pub use messaging_traits::common::*; }`.
Per Rust name resolution, explicitly declared items (`common`, and the
named re-exports `client` and `service`) shadow names brought in by the
glob re-exports.  The local module `common` has as its sole content a glob
re-export of messaging_traits' common module, so it is identified with
that module here. -/
def resolve (n : String) : Option Item :=
  if n = "common" then some ⟨Origin.messaging, ["common"]⟩
  else if n = "client" then some ⟨Origin.messaging, ["client"]⟩
  else if n = "service" then some ⟨Origin.messaging, ["service"]⟩
  else if n ∈ peripheral_traits.pubModules then some ⟨Origin.peripheral, [n]⟩
  else if n ∈ crypto_traits.pubModules then some ⟨Origin.crypto, [n]⟩
  else none

end proposed_traits

/-- C1 (counterexample to the claim as stated): `common` is a public item of
the crypto_traits crate, yet the path proposed_traits::common does not
resolve to crypto_traits' common module — it is shadowed by the facade's
explicit alias of messaging_traits' common module. -/
theorem C1_counterexample_crypto_common :
    "common" ∈ crypto_traits.pubModules ∧
    proposed_traits.resolve "common" ≠ some ⟨Origin.crypto, ["common"]⟩ := by
  decide

/-- C1 (amended): every public module of peripheral_traits, and every public
module of crypto_traits other than `common`, is re-exported unchanged by the
proposed_traits facade; messaging_traits' `client` and `service` are
re-exported unchanged; `common` resolves to messaging_traits' common module;
and no name resolves to an item defined by the facade itself. -/
theorem C1_facade_reexports :
    (∀ n ∈ peripheral_traits.pubModules,
        proposed_traits.resolve n = some ⟨Origin.peripheral, [n]⟩) ∧
    (∀ n ∈ crypto_traits.pubModules, n ≠ "common" →
        proposed_traits.resolve n = some ⟨Origin.crypto, [n]⟩) ∧
    proposed_traits.resolve "client" = some ⟨Origin.messaging, ["client"]⟩ ∧
    proposed_traits.resolve "service" = some ⟨Origin.messaging, ["service"]⟩ ∧
    proposed_traits.resolve "common" = some ⟨Origin.messaging, ["common"]⟩ ∧
    (∀ n, ∀ i, proposed_traits.resolve n = some i → i.origin ≠ Origin.facade) := by
  refine ⟨by decide, by decide, by decide, by decide, by decide, ?_⟩
  intro n i h
  unfold proposed_traits.resolve at h
  split at h
  · cases h; decide
  · split at h
    · cases h; decide
    · split at h
      · cases h; decide
      · split at h
        · cases h; simp
        · split at h
          · cases h; simp
          · cases h

/-- C2: the facade's explicit `common` module resolves to messaging_traits'
common submodule and shadows the `common` module that the glob re-export of
crypto_traits would otherwise bring in, even though crypto_traits does
declare a public `common` module. -/
theorem C2_common_shadows_glob :
    proposed_traits.resolve "common" = some ⟨Origin.messaging, ["common"]⟩ ∧
    "common" ∈ crypto_traits.pubModules ∧
    proposed_traits.resolve "common" ≠ some ⟨Origin.crypto, ["common"]⟩ := by
  decide

/-- C3: the public interface of crypto_traits is exactly the five trait
family modules digest, mac, ecdsa, rsa, symm_cipher plus the shared common
module, each declared once, and nothing else. -/
theorem C3_crypto_public_modules :
    crypto_traits.pubModules.Perm
      ["digest", "mac", "ecdsa", "rsa", "symm_cipher", "common"] ∧
    crypto_traits.pubModules.Nodup := by
  decide

/-- C4: the public interface of peripheral_traits is exactly the seven trait
family modules block_device, i2c_target, i3c_master, i3c_target, otp,
otp_aspeed, system_control, each declared once, with no `common` module of
its own. -/
theorem C4_peripheral_public_modules :
    peripheral_traits.pubModules.Perm
      ["block_device", "i2c_target", "i3c_master", "i3c_target",
       "otp", "otp_aspeed", "system_control"] ∧
    peripheral_traits.pubModules.Nodup ∧
    "common" ∉ peripheral_traits.pubModules := by
  decide

/-- C9: each of the three crates of the layer carries the `#![no_std]`
crate-level attribute. -/
theorem C9_no_std_everywhere :
    CrateAttr.noStd ∈ crypto_traits.crateAttrs ∧
    CrateAttr.noStd ∈ peripheral_traits.crateAttrs ∧
    CrateAttr.noStd ∈ proposed_traits.crateAttrs := by
  decide

/-- C10: each of the three crates of the layer carries the
`#![deny(unsafe_code)]` crate-level attribute. -/
theorem C10_deny_unsafe_everywhere :
    CrateAttr.denyUnsafeCode ∈ crypto_traits.crateAttrs ∧
    CrateAttr.denyUnsafeCode ∈ peripheral_traits.crateAttrs ∧
    CrateAttr.denyUnsafeCode ∈ proposed_traits.crateAttrs := by
  decide

deriving instance DecidableEq for Except

namespace otp

/-- Error kinds of the otp contract.  Modelled from the spec: the OTP-specific
named error kinds are `AlreadyLocked` and `WriteProtected`; the module body
src/peripheral_traits/src/otp.rs is not part of this source tree. -/
inductive Error where
  | alreadyLocked  : Error
  | writeProtected : Error
deriving DecidableEq, Repr

/-- Modelled from the spec: the state of a one-time-programmable memory — a
set of locked region identifiers and the programmed bytes per region; the
module body src/peripheral_traits/src/otp.rs is not part of this source
tree.  Regions are identified by a distinct semantic index (here `Nat`). -/
structure State where
  lockedRegions : List Nat
  mem           : List (Nat × List Nat)
deriving DecidableEq, Repr

/-- Query of a region's lock flag. -/
def State.isLocked (s : State) (r : Nat) : Bool :=
  decide (r ∈ s.lockedRegions)

/-- Bitwise-OR merge of newly programmed bytes onto the existing bytes of a
region: programming can only set bits, never revert them (irreversible per
bit). -/
def orMerge : List Nat → List Nat → List Nat
  | old, [] => old
  | [], d => d
  | o :: os, b :: bs => (o ||| b) :: orMerge os bs

/-- Program bytes into a region of the backing store. -/
def writeMem : List (Nat × List Nat) → Nat → List Nat → List (Nat × List Nat)
  | [], r, d => [(r, d)]
  | (r2, old) :: rest, r, d =>
      if r2 = r then (r2, orMerge old d) :: rest
      else (r2, old) :: writeMem rest r d

/-- Modelled from the spec: `write(region, data)` programs the region if it is
unlocked, and returns the named write-protected error — a non-fatal result,
not a panic — if the region is locked. -/
def State.write (s : State) (r : Nat) (d : List Nat) : State × Except Error Unit :=
  if s.isLocked r then (s, Except.error Error.writeProtected)
  else ({ s with mem := writeMem s.mem r d }, Except.ok ())

/-- Modelled from the spec: `lock(region)` permanently forbids further writes
to the region; locking an already locked region returns the named
`AlreadyLocked` error. -/
def State.lock (s : State) (r : Nat) : State × Except Error Unit :=
  if s.isLocked r then (s, Except.error Error.alreadyLocked)
  else ({ s with lockedRegions := r :: s.lockedRegions }, Except.ok ())

/-- An operation issued against the OTP contract. -/
inductive Op where
  | write (r : Nat) (d : List Nat) : Op
  | lock  (r : Nat) : Op
  | query (r : Nat) : Op
deriving DecidableEq, Repr

/-- The observable outcome of one operation. -/
inductive Result where
  | res  (e : Except Error Unit) : Result
  | flag (b : Bool) : Result
deriving DecidableEq, Repr

/-- One step of the OTP contract. -/
def State.step (s : State) : Op → State × Result
  | Op.write r d => let p := s.write r d; (p.1, Result.res p.2)
  | Op.lock r => let p := s.lock r; (p.1, Result.res p.2)
  | Op.query r => (s, Result.flag (s.isLocked r))

/-- Run a sequence of operations, collecting the outcome of each. -/
def State.run (s : State) : List Op → State × List Result
  | [] => (s, [])
  | op :: ops =>
      let p := s.step op
      let q := p.1.run ops
      (q.1, p.2 :: q.2)

/-- Along a trace (operations paired with their outcomes), every write to
region r was rejected with the write-protected error and every lock-state
query of r read true. -/
def lockedOk (r : Nat) : List Op → List Result → Bool
  | Op.write r2 _ :: ops, x :: xs =>
      (if r2 = r then decide (x = Result.res (Except.error Error.writeProtected)) else true)
        && lockedOk r ops xs
  | Op.query r2 :: ops, x :: xs =>
      (if r2 = r then decide (x = Result.flag true) else true) && lockedOk r ops xs
  | Op.lock _ :: ops, _ :: xs => lockedOk r ops xs
  | _, _ => true

theorem step_preserves_locked (s : State) (r : Nat) (op : Op)
    (h : s.isLocked r = true) : (s.step op).1.isLocked r = true := by
  cases op with
  | write r2 d =>
      simp only [State.step, State.write]
      split
      · exact h
      · exact h
  | lock r2 =>
      simp only [State.step, State.lock]
      split
      · exact h
      · simp only [State.isLocked, decide_eq_true_eq] at h ⊢
        exact List.mem_cons_of_mem _ h
  | query r2 => exact h

theorem step_result_locked (s : State) (r : Nat) (op : Op)
    (h : s.isLocked r = true) :
    (∀ d, op = Op.write r d →
        (s.step op).2 = Result.res (Except.error Error.writeProtected)) ∧
    (op = Op.query r → (s.step op).2 = Result.flag true) := by
  constructor
  · intro d hop
    subst hop
    simp only [State.step, State.write, h, if_true]
  · intro hop
    subst hop
    simp only [State.step, h]

theorem run_locked_ok (r : Nat) (ops : List Op) :
    ∀ s : State, s.isLocked r = true →
      (s.run ops).1.isLocked r = true ∧ lockedOk r ops (s.run ops).2 = true := by
  induction ops with
  | nil => intro s h; exact ⟨h, rfl⟩
  | cons op ops ih =>
      intro s h
      have hstep := step_preserves_locked s r op h
      have hres := step_result_locked s r op h
      have hrest := ih (s.step op).1 hstep
      constructor
      · simpa [State.run] using hrest.1
      · show lockedOk r (op :: ops) (s.run (op :: ops)).2 = true
        have hrun : (s.run (op :: ops)).2
            = (s.step op).2 :: ((s.step op).1.run ops).2 := rfl
        rw [hrun]
        cases op with
        | write r2 d =>
            simp only [lockedOk, Bool.and_eq_true]
            refine ⟨?_, hrest.2⟩
            split
            · next heq =>
                subst heq
                simp [hres.1 d rfl]
            · rfl
        | lock r2 => exact hrest.2
        | query r2 =>
            simp only [lockedOk, Bool.and_eq_true]
            refine ⟨?_, hrest.2⟩
            split
            · next heq =>
                subst heq
                simp [hres.2 rfl]
            · rfl

/-- C5: once `lock(r)` succeeds, every subsequent `write(r, ...)` in any
following sequence of operations returns the named write-protected error, no
matter how often it is retried, and every subsequent query of r's lock flag
reads true — the flag never again reads unlocked (the final state is still
locked as well). -/
theorem C5_otp_lock_permanent (s0 : State) (r : Nat) (ops : List Op)
    (h : (s0.lock r).2 = Except.ok ()) :
    ((s0.lock r).1.run ops).1.isLocked r = true ∧
    lockedOk r ops ((s0.lock r).1.run ops).2 = true := by
  have h1 : (s0.lock r).1.isLocked r = true := by
    by_cases hl : s0.isLocked r = true
    · exfalso
      simp [State.lock, hl] at h
    · simp only [Bool.not_eq_true] at hl
      have h2 : (s0.lock r).1 = { s0 with lockedRegions := r :: s0.lockedRegions } := by
        simp [State.lock, hl]
      rw [h2]
      simp [State.isLocked]
  exact run_locked_ok r ops (s0.lock r).1 h1

/-- A fresh, fully unlocked and unprogrammed OTP state. -/
def freshState : State := ⟨[], []⟩

/-- A trace retrying a write to the locked region 0 twice and then querying
its lock flag. -/
def retryTrace : List Op :=
  [Op.write 0 [255, 255], Op.write 0 [255, 255], Op.query 0]

theorem C5_otp_lock_permanent_witness :
    (freshState.lock 0).2 = Except.ok () ∧
    ((freshState.lock 0).1.run retryTrace).1.isLocked 0 = true ∧
    lockedOk 0 retryTrace ((freshState.lock 0).1.run retryTrace).2 = true :=
  ⟨by decide, (C5_otp_lock_permanent freshState 0 retryTrace (by decide)).1,
    (C5_otp_lock_permanent freshState 0 retryTrace (by decide)).2⟩

end otp

namespace digest

/-- Modelled from the spec: a digest session's state "must reflect exactly the
concatenation of all supplied slices" — the module body
src/crypto_traits/src/digest.rs is not part of this source tree.  Bytes are
modelled as naturals. -/
structure Session where
  acc : List Nat
deriving DecidableEq, Repr

/-- `start`: no input, returns a fresh session state. -/
def start : Session := ⟨[]⟩

/-- `update`: accepts a byte slice, appending it to the accumulated input
(order-sensitive). -/
def Session.update (s : Session) (a : List Nat) : Session :=
  ⟨s.acc ++ a⟩

/-- `finish`: consumes the session and returns the algorithm's output for the
accumulated input; the compression algorithm itself (H) is backend-defined
and is a parameter of the model. -/
def Session.finish (H : List Nat → List Nat) (s : Session) : List Nat :=
  H s.acc

end digest

namespace mac

/-- Modelled from the spec: a mac session has "the same incremental shape as
digest, additionally parameterized by a key supplied at start time" — the
module body src/crypto_traits/src/mac.rs is not part of this source tree. -/
structure Session where
  key : List Nat
  acc : List Nat
deriving DecidableEq, Repr

/-- `start`: takes the key, returns a fresh session state over it. -/
def start (key : List Nat) : Session := ⟨key, []⟩

/-- `update`: appends a byte slice to the accumulated input. -/
def Session.update (s : Session) (a : List Nat) : Session :=
  ⟨s.key, s.acc ++ a⟩

/-- `finish`: consumes the session and returns the tag over key and
accumulated input; the mac algorithm itself (M) is backend-defined. -/
def Session.finish (M : List Nat → List Nat → List Nat) (s : Session) : List Nat :=
  M s.key s.acc

end mac

/-- C6: for digest and mac alike, streaming is order-preserving and
split-invariant — start, update(a), update(b), finish produces the same
output as start, update(a ++ b), finish, for any two non-empty slices a and
b and any backend algorithm. -/
theorem C6_streaming_split_invariant
    (H : List Nat → List Nat) (M : List Nat → List Nat → List Nat)
    (key a b : List Nat) (ha : a ≠ []) (hb : b ≠ []) :
    ((digest.start.update a).update b).finish H
        = (digest.start.update (a ++ b)).finish H ∧
    (((mac.start key).update a).update b).finish M
        = ((mac.start key).update (a ++ b)).finish M := by
  constructor <;>
    simp [digest.start, digest.Session.update, digest.Session.finish,
      mac.start, mac.Session.update, mac.Session.finish]

theorem C6_streaming_split_invariant_witness :
    ([2] : List Nat) ≠ [] ∧ ([3] : List Nat) ≠ [] ∧
    ((digest.start.update [2]).update [3]).finish id
        = (digest.start.update ([2] ++ [3])).finish id ∧
    (((mac.start [1]).update [2]).update [3]).finish List.append
        = ((mac.start [1]).update ([2] ++ [3])).finish List.append :=
  ⟨by decide, by decide,
    (C6_streaming_split_invariant id List.append [1] [2] [3] (by decide) (by decide)).1,
    (C6_streaming_split_invariant id List.append [1] [2] [3] (by decide) (by decide)).2⟩

namespace block_device

/-- Error kinds of the block_device contract.  Modelled from the spec: a
write to an unaligned or out-of-range index fails with a named range error;
an input of the wrong block length is an invalid-length data error. -/
inductive Error where
  | outOfRange    : Error
  | invalidLength : Error
deriving DecidableEq, Repr

/-- Modelled from the spec: a block device with associated constants for block
size and total block count, and per-block contents — the module body
src/peripheral_traits/src/block_device.rs is not part of this source tree.
Blocks are indexed by `Nat`; contents of block i are `blocks i`. -/
structure Device where
  blockSize  : Nat
  blockCount : Nat
  blocks     : Nat → List Nat

/-- `write(block_index, input_buffer)`: replaces the full block at an
in-range index with a full-block-sized buffer (no implicit
read-modify-write); out-of-range indices fail with the named range error
and input of the wrong length with the invalid-length error. -/
def Device.write (dev : Device) (i : Nat) (data : List Nat) :
    Device × Except Error Unit :=
  if i < dev.blockCount then
    if data.length = dev.blockSize then
      ({ dev with blocks := fun j => if j = i then data else dev.blocks j },
        Except.ok ())
    else (dev, Except.error Error.invalidLength)
  else (dev, Except.error Error.outOfRange)

/-- `read(block_index)`: returns the contents of an in-range block. -/
def Device.read (dev : Device) (i : Nat) : Except Error (List Nat) :=
  if i < dev.blockCount then Except.ok (dev.blocks i)
  else Except.error Error.outOfRange

end block_device

/-- C7: for any block device, any in-range block index i and any block-sized
data, write(i, data) followed by read(i) yields exactly data. -/
theorem C7_write_then_read (dev : block_device.Device) (i : Nat)
    (data : List Nat) (hi : i < dev.blockCount)
    (hlen : data.length = dev.blockSize) :
    ((dev.write i data).1.read i) = Except.ok data := by
  simp [block_device.Device.write, block_device.Device.read, hi, hlen]

/-- A concrete 4-block device of 16-byte blocks, all bytes erased to 255. -/
def dev4x16 : block_device.Device :=
  ⟨16, 4, fun _ => List.replicate 16 255⟩

theorem C7_write_then_read_witness :
    (2 < dev4x16.blockCount ∧ (List.replicate 16 170).length = dev4x16.blockSize) ∧
    ((dev4x16.write 2 (List.replicate 16 170)).1.read 2)
        = Except.ok (List.replicate 16 170) :=
  ⟨⟨by decide, by decide⟩,
    C7_write_then_read dev4x16 2 (List.replicate 16 170) (by decide) (by decide)⟩

/-- C8: a write to an out-of-range block index returns the named range error
and leaves the device — in particular the contents of every block —
unchanged. -/
theorem C8_out_of_range_write (dev : block_device.Device) (i : Nat)
    (data : List Nat) (hi : ¬ i < dev.blockCount) :
    dev.write i data = (dev, Except.error block_device.Error.outOfRange) ∧
    ∀ j, ((dev.write i data).1).blocks j = dev.blocks j := by
  constructor
  · simp [block_device.Device.write, hi]
  · intro j
    simp [block_device.Device.write, hi]

/-- A second concrete 4-block device of 16-byte blocks, erased to 255. -/
def dev4x16b : block_device.Device :=
  ⟨16, 4, fun _ => List.replicate 16 255⟩

theorem C8_out_of_range_write_witness :
    (¬ 5 < dev4x16b.blockCount) ∧
    dev4x16b.write 5 (List.replicate 16 0)
        = (dev4x16b, Except.error block_device.Error.outOfRange) :=
  ⟨by decide,
    (C8_out_of_range_write dev4x16b 5 (List.replicate 16 0) (by decide)).1⟩
